import Mathlib

/-!
Verification development for the cinema ticket-ordering service
(`cinema/serializers.py`, `cinema/views.py`).

The Python source is shallowly embedded: the durable store (Django ORM
rows) is a `Store` record, Django's `transaction.atomic()` is modelled by
returning the pre-transaction store whenever the body raises, and
serializer/view methods become Lean functions over `Store`.  Machine
integers in the source are unbounded Python ints, so `Int`/`Nat` are used
directly.  `cinema/models.py` is not part of the given source; the few
facts needed from it (hall capacity, the uniqueness constraint over
`(movie_session, row, seat)`) are modelled from the spec and marked as
such in their doc comments.
-/

/-- Decidable equality for `Except`, so results of the embedded
endpoints can be compared by `decide`. -/
instance {ε α : Type} [DecidableEq ε] [DecidableEq α] : DecidableEq (Except ε α) := fun a b =>
  match a, b with
  | .error e, .error f =>
    decidable_of_iff (e = f) ⟨fun h => h ▸ rfl, fun h => by injection h⟩
  | .error _, .ok _ => isFalse (fun h => Except.noConfusion h)
  | .ok _, .error _ => isFalse (fun h => Except.noConfusion h)
  | .ok a, .ok b =>
    decidable_of_iff (a = b) ⟨fun h => h ▸ rfl, fun h => by injection h⟩

namespace Cinema

/-- `CinemaHall` row: `rows` and `seats_in_row` define the seating grid
(`cinema/models.py`, referenced by `serializers.py` lines 79-89). -/
structure CinemaHall where
  id : Nat
  rows : Int
  seats_in_row : Int
  deriving DecidableEq, Repr

/-- Modelled from the spec: `cinema/models.py` is absent from the given
source; the spec defines the derived field `capacity = rows * seats_in_row`
(spec section 3, used by `views.py` line 84 as `cinema_hall__capacity`). -/
def CinemaHall.capacity (h : CinemaHall) : Int :=
  h.rows * h.seats_in_row

/-- `MovieSession` row; `show_time` is kept only as its calendar date,
which is all `views.py` line 75 (`show_time__date`) consults. -/
structure MovieSession where
  id : Nat
  movie_id : Nat
  cinema_hall : CinemaHall
  show_time_date : Nat × Nat × Nat
  deriving DecidableEq, Repr

/-- `Ticket` row (`order_id` is the owning order's pk). -/
structure Ticket where
  order_id : Nat
  movie_session_id : Nat
  row : Int
  seat : Int
  deriving DecidableEq, Repr

/-- `Order` row. -/
structure Order where
  id : Nat
  user_id : Nat
  deriving DecidableEq, Repr

/-- `Movie` row, with the many-to-many genre/actor ids used by
`MovieViewSet.get_queryset`. -/
structure Movie where
  id : Nat
  title : String
  genre_ids : List Nat
  actor_ids : List Nat
  deriving DecidableEq, Repr

/-- The durable store: committed rows plus the next Order pk. -/
structure Store where
  movies : List Movie
  sessions : List MovieSession
  orders : List Order
  tickets : List Ticket
  nextOrderId : Nat
  deriving DecidableEq, Repr

/-- One requested ticket of a POST body, after DRF resolved the
`movie_session` pk to its row (fields of `TicketCreateSerializer`). -/
structure TicketData where
  row : Int
  seat : Int
  movie_session : MovieSession
  deriving DecidableEq, Repr

/-- Errors raised as `rest_framework` `ValidationError`s by
`TicketCreateSerializer.validate` (`serializers.py` lines 81-96); the
payload of the two geometry errors is the bound quoted in the message. -/
inductive OrderError where
  | rowGeometry (rows : Int)
  | seatGeometry (seats_in_row : Int)
  | seatTaken
  deriving DecidableEq, Repr

/-- Whether an error is one of the two hall-geometry rejections. -/
def OrderError.isGeometry : OrderError → Bool
  | .rowGeometry _ => true
  | .seatGeometry _ => true
  | .seatTaken => false

/-- `Ticket.objects.filter(movie_session=..., row=..., seat=...)` match
predicate (`serializers.py` lines 93-95). -/
def Ticket.matchesReq (tk : Ticket) (t : TicketData) : Bool :=
  tk.movie_session_id == t.movie_session.id && tk.row == t.row && tk.seat == t.seat

/-- `TicketCreateSerializer.validate` (`serializers.py` lines 72-98):
row bound check, then seat bound check, then the already-taken lookup
against the visible tickets. -/
def ticketValidate (s : Store) (t : TicketData) : Except OrderError Unit :=
  let cinema_hall := t.movie_session.cinema_hall
  if ¬ (1 ≤ t.row ∧ t.row ≤ cinema_hall.rows) then
    .error (.rowGeometry cinema_hall.rows)
  else if ¬ (1 ≤ t.seat ∧ t.seat ≤ cinema_hall.seats_in_row) then
    .error (.seatGeometry cinema_hall.seats_in_row)
  else if s.tickets.any (·.matchesReq t) then
    .error .seatTaken
  else
    .ok ()

/-- The `Ticket` row written by `ticket_serializer.save(order=order)`. -/
def ticketOf (oid : Nat) (t : TicketData) : Ticket :=
  { order_id := oid, movie_session_id := t.movie_session.id, row := t.row, seat := t.seat }

/-- The loop of `OrderSerializer.create` (`serializers.py` lines 120-124):
validate each requested ticket against the working state (the open
transaction sees its own earlier inserts), then save it.  A
`ValidationError` propagates out carrying the dirty working state. -/
def insertTickets (oid : Nat) : List TicketData → Store → Except (OrderError × Store) Store
  | [], w => .ok w
  | t :: ts, w =>
    match ticketValidate w t with
    | .error e => .error (e, w)
    | .ok _ => insertTickets oid ts { w with tickets := w.tickets ++ [ticketOf oid t] }

/-- `OrderSerializer.create` (`serializers.py` lines 109-126): inside
`transaction.atomic()` create the Order row, then validate-and-save each
requested ticket.  Django rolls the transaction back when the body
raises, so the dirty working state is discarded and only the error
escapes; on success the working state is committed. -/
def orderCreate (store : Store) (u : Nat) (tickets_data : List TicketData) :
    Except OrderError (Store × Nat) :=
  let oid := store.nextOrderId
  let w := { store with
              orders := store.orders ++ [{ id := oid, user_id := u }],
              nextOrderId := oid + 1 }
  match insertTickets oid tickets_data w with
  | .error (e, _dirty) => .error e
  | .ok w2 => .ok (w2, oid)

/-- The committed store after a `POST /orders` call: the new state on
success, the unchanged pre-transaction state after a rollback. -/
def stateAfter (store : Store) (u : Nat) (tickets_data : List TicketData) : Store :=
  match orderCreate store u tickets_data with
  | .ok (s, _) => s
  | .error _ => store

/-- Committed tickets matching one requested `(session, row, seat)`. -/
def countTriple (s : Store) (t : TicketData) : Nat :=
  (s.tickets.filter (·.matchesReq t)).length

/-- Committed tickets of one session (`Count("tickets")`, `views.py` line 84). -/
def countSession (s : Store) (sid : Nat) : Nat :=
  (s.tickets.filter (fun tk => tk.movie_session_id == sid)).length

/-- The requested seat lies inside the hall grid. -/
def geometryOk (t : TicketData) : Prop :=
  (1 ≤ t.row ∧ t.row ≤ t.movie_session.cinema_hall.rows) ∧
  (1 ≤ t.seat ∧ t.seat ≤ t.movie_session.cinema_hall.seats_in_row)

instance (t : TicketData) : Decidable (geometryOk t) := by
  unfold geometryOk; infer_instance

/-! ### Instrumented copy of `OrderSerializer.create`

The same code as `insertTickets`/`orderCreate`, instrumented with an
event log that records each store write and each run of
`TicketCreateSerializer.validate`, to reason about the order in which
the transaction body touches the store. -/

/-- Events of one `OrderSerializer.create` execution: the `Order` row
insert, the validator run on request item `i`, the `Ticket` row insert
for request item `i`. -/
inductive Ev where
  | writeOrder (oid : Nat)
  | validateTicket (i : Nat)
  | writeTicket (i : Nat)
  deriving DecidableEq, Repr

/-- `Ev.writeOrder` and `Ev.writeTicket` are store writes. -/
def Ev.isWrite : Ev → Bool
  | .writeOrder _ => true
  | .validateTicket _ => false
  | .writeTicket _ => true

/-- `insertTickets` with an event log (`i` is the index of the head
request item). -/
def insertTicketsTr (oid : Nat) : List TicketData → Nat → Store →
    List Ev × Except (OrderError × Store) Store
  | [], _, w => ([], .ok w)
  | t :: ts, i, w =>
    match ticketValidate w t with
    | .error e => ([.validateTicket i], .error (e, w))
    | .ok _ =>
      let r := insertTicketsTr oid ts (i + 1) { w with tickets := w.tickets ++ [ticketOf oid t] }
      (.validateTicket i :: .writeTicket i :: r.1, r.2)

/-- `orderCreate` with an event log. -/
def orderCreateTr (store : Store) (u : Nat) (tickets_data : List TicketData) :
    List Ev × Except OrderError (Store × Nat) :=
  let oid := store.nextOrderId
  let w := { store with
              orders := store.orders ++ [{ id := oid, user_id := u }],
              nextOrderId := oid + 1 }
  let r := insertTicketsTr oid tickets_data 0 w
  (.writeOrder oid :: r.1,
   match r.2 with
   | .error (e, _dirty) => .error e
   | .ok w2 => .ok (w2, oid))

/-! ### Non-overlapping schedules of contending calls

Modelled from the spec: `cinema/models.py` is absent from the given
source; per spec sections 3 and 5 the store enforces the uniqueness
constraint over `(movie_session, row, seat)` and commits the atomic
`placeOrder` transactions one at a time.  `runCalls` covers only the
schedules in which each contending transaction begins after the
previous one committed, so every pre-check read already sees the
earlier committed rows; a transaction that instead overlaps the
winning commit (its pre-check read preceding that commit) is modelled
separately by `orderCreateRaced` below, because its failure comes from
the constraint at INSERT time, not from the pre-check. -/

/-- Run one single-seat `placeOrder` call per user in `users`, each
call's transaction starting only after the previous call committed,
threading the committed store. -/
def runCalls (td : TicketData) : List Nat → Store → Store × List (Except OrderError Nat)
  | [], s => (s, [])
  | u :: us, s =>
    match orderCreate s u [td] with
    | .ok (s', oid) =>
      let r := runCalls td us s'
      (r.1, .ok oid :: r.2)
    | .error e =>
      let r := runCalls td us s
      (r.1, .error e :: r.2)

/-! ### Commit-time conflict model

Modelled from the spec: the uniqueness constraint over
`(movie_session, row, seat)` lives in `cinema/models.py`, absent from the
given source.  A transaction `T1` whose `Ticket.objects.filter(...)`
reads see only `T1`'s snapshot plus its own writes can race a concurrent
transaction `T2` that commits a conflicting row first; the constraint
then rejects `T1`'s INSERT and Django raises `IntegrityError`.  Nothing
in `serializers.py` or `views.py` catches `IntegrityError`, so it
propagates unhandled (it is not a `ValidationError`). -/

/-- Python exceptions escaping `OrderSerializer.create` in the raced
model: a DRF `ValidationError`, or the ORM's `IntegrityError` from the
uniqueness constraint. -/
inductive PyExc where
  | validation (e : OrderError)
  | integrityError
  deriving DecidableEq, Repr

/-- The constraint check at INSERT time: the new row conflicts when its
`(movie_session, row, seat)` already exists among the transaction's own
rows or among `concurrent`, the rows committed by the racing transaction
after this transaction's snapshot was taken. -/
def insertTicketRaced (concurrent : List Ticket) (w : Store) (tk : Ticket) :
    Except PyExc Store :=
  if (w.tickets ++ concurrent).any (fun t0 =>
      t0.movie_session_id == tk.movie_session_id && t0.row == tk.row && t0.seat == tk.seat) then
    .error .integrityError
  else
    .ok { w with tickets := w.tickets ++ [tk] }

/-- The loop of `OrderSerializer.create` under the raced model: validate
against the snapshot-plus-own-writes state `w`, then INSERT under the
constraint. -/
def insertTicketsRaced (concurrent : List Ticket) (oid : Nat) :
    List TicketData → Store → Except PyExc Store
  | [], w => .ok w
  | t :: ts, w =>
    match ticketValidate w t with
    | .error e => .error (.validation e)
    | .ok _ =>
      match insertTicketRaced concurrent w (ticketOf oid t) with
      | .error exc => .error exc
      | .ok w2 => insertTicketsRaced concurrent oid ts w2

/-- `OrderSerializer.create` raced against rows `concurrent` committed by
another transaction after this one's snapshot; any exception rolls the
transaction back and propagates. -/
def orderCreateRaced (store : Store) (concurrent : List Ticket) (u : Nat)
    (tickets_data : List TicketData) : Except PyExc (Store × Nat) :=
  let oid := store.nextOrderId
  let w := { store with
              orders := store.orders ++ [{ id := oid, user_id := u }],
              nextOrderId := oid + 1 }
  match insertTicketsRaced concurrent oid tickets_data w with
  | .error exc => .error exc
  | .ok w2 => .ok (w2, oid)

/-! ### The view layer (`cinema/views.py`)

Query parameters arrive as `Option String` (`query_params.get` returns
`None` when absent).  A `ValueError` escaping `int(...)` or
`datetime.strptime(...)` is uncaught in the source, so the embedded
querysets return `Except Unit` with `.error ()` standing for the
unhandled exception. -/

/-- Python truthiness of `query_params.get(...)`: `None` and `""` are
falsy, every other string is truthy. -/
def pyTruthy : Option String → Bool
  | none => false
  | some s => !s.data.isEmpty

/-- Python `str.split(sep)` for a one-character separator; note that
`"".split(",") == [""]`. -/
def pySplit (sep : Char) : List Char → List (List Char)
  | [] => [[]]
  | c :: rest =>
    let r := pySplit sep rest
    if c = sep then [] :: r
    else
      match r with
      | [] => [[c]]
      | g :: gs => (c :: g) :: gs

/-- Leading and trailing whitespace removal, as `int(str)` performs. -/
def pyStrip (s : List Char) : List Char :=
  ((s.dropWhile Char.isWhitespace).reverse.dropWhile Char.isWhitespace).reverse

/-- Digit run to number. -/
def digitsToNat (l : List Char) : Nat :=
  l.foldl (fun acc c => 10 * acc + (c.toNat - '0'.toNat)) 0

/-- Python `int(str)`: optional surrounding whitespace, an optional
sign, then one or more digits; anything else raises `ValueError`
(`none`). -/
def pyInt? (s : List Char) : Option Int :=
  let t := pyStrip s
  let core := match t with
    | '-' :: r => r
    | '+' :: r => r
    | r => r
  let neg := match t with
    | '-' :: _ => true
    | _ => false
  if core.isEmpty ∨ ¬ core.all Char.isDigit then none
  else some (if neg then -(digitsToNat core : Int) else (digitsToNat core : Int))

/-- `[int(str_id) for str_id in param.split(",")]` (`views.py` lines 37
and 41): `none` when any token raises `ValueError`. -/
def parseIds (s : String) : Option (List Int) :=
  (pySplit ',' s.data).mapM pyInt?

/-- `datetime.strptime(date, "%Y-%m-%d").date()` (`views.py` line 74):
a 4-digit year, 1-2 digit month and day, dashes in between, month and
day in calendar range; anything else raises `ValueError` (`none`). -/
def parseDate (s : String) : Option (Nat × Nat × Nat) :=
  match pySplit '-' s.data with
  | [y, m, d] =>
    if y.length == 4 && y.all Char.isDigit &&
       decide (1 ≤ m.length) && m.length ≤ 2 && m.all Char.isDigit &&
       decide (1 ≤ d.length) && d.length ≤ 2 && d.all Char.isDigit then
      let mv := digitsToNat m
      let dv := digitsToNat d
      if 1 ≤ mv && mv ≤ 12 && 1 ≤ dv && dv ≤ 31 then some (digitsToNat y, mv, dv)
      else none
    else none
  | _ => none

/-- `sub` occurs inside `hay` (both as character lists). -/
def charsContain (sub : List Char) : List Char → Bool
  | [] => sub.isEmpty
  | c :: rest => sub.isPrefixOf (c :: rest) || charsContain sub rest

/-- Substring test used for `title__icontains`: `sub` occurs in `hay`,
case-insensitively. -/
def strContainsCI (hay sub : String) : Bool :=
  charsContain (sub.data.map Char.toLower) (hay.data.map Char.toLower)

/-- `MovieViewSet.get_queryset` (`views.py` lines 21-44): filter by title
substring, then by genre ids, then by actor ids, then `distinct()`.  A
non-integer token in `genres` or `actors` raises `ValueError`, uncaught. -/
def movieGetQueryset (store : Store) (title genres actors : Option String) :
    Except Unit (List Movie) := do
  let qs := store.movies
  let qs := if pyTruthy title then
      qs.filter (fun m => strContainsCI m.title (title.getD ""))
    else qs
  let qs ← (if pyTruthy genres then
      match parseIds (genres.getD "") with
      | none => Except.error ()
      | some genres_ids =>
        Except.ok (qs.filter (fun m => m.genre_ids.any (fun g => genres_ids.contains (g : Int))))
    else Except.ok qs)
  let qs ← (if pyTruthy actors then
      match parseIds (actors.getD "") with
      | none => Except.error ()
      | some actors_ids =>
        Except.ok (qs.filter (fun m => m.actor_ids.any (fun a => actors_ids.contains (a : Int))))
    else Except.ok qs)
  pure qs.eraseDups

/-- `tickets_available` as computed by the queryset of `views.py` lines
83-85: `cinema_hall__capacity - Count("tickets")` over committed rows. -/
def availableSeats (store : Store) (ms : MovieSession) : Int :=
  ms.cinema_hall.capacity - (countSession store ms.id : Int)

/-- `MovieSessionViewSet.get_queryset` (`views.py` lines 62-87): filter
by date and movie id; on the `list` action attach `tickets_available`
to each session.  A malformed `date` raises `ValueError` in `strptime`,
uncaught; a non-integer `movie` raises when the filter is evaluated. -/
def movieSessionGetQueryset (store : Store) (date movie : Option String)
    (actionIsList : Bool) : Except Unit (List (MovieSession × Option Int)) := do
  let qs := store.sessions
  let qs ← (if pyTruthy date then
      match parseDate (date.getD "") with
      | none => Except.error ()
      | some date_obj => Except.ok (qs.filter (fun ms => ms.show_time_date == date_obj))
    else Except.ok qs)
  let qs ← (if pyTruthy movie then
      match pyInt? (movie.getD "").data with
      | none => Except.error ()
      | some movie_id => Except.ok (qs.filter (fun ms => (ms.movie_id : Int) == movie_id))
    else Except.ok qs)
  if actionIsList then
    pure (qs.map (fun ms => (ms, some (availableSeats store ms))))
  else
    pure (qs.map (fun ms => (ms, none)))

/-- `OrderViewSet.get_queryset` (`views.py` lines 96-98):
`Order.objects.filter(user=self.request.user)`. -/
def orderGetQueryset (store : Store) (requestUser : Nat) : List Order :=
  store.orders.filter (fun o => o.user_id == requestUser)

/-! ### Concrete fixtures (the spec's example hall, scaled down) -/

/-- A 2-row, 3-seats-per-row hall. -/
def hallA : CinemaHall := { id := 1, rows := 2, seats_in_row := 3 }

/-- A session in `hallA`. -/
def sessA : MovieSession :=
  { id := 1, movie_id := 1, cinema_hall := hallA, show_time_date := (2024, 1, 1) }

/-- A catalog movie. -/
def movieA : Movie := { id := 1, title := "Inception", genre_ids := [1], actor_ids := [2] }

/-- A store with one movie, one session, no orders, no tickets. -/
def baseStore : Store :=
  { movies := [movieA], sessions := [sessA], orders := [], tickets := [], nextOrderId := 0 }

/-- A valid seat request for `sessA`. -/
def td1 : TicketData := { row := 1, seat := 2, movie_session := sessA }

/-- A second valid seat request for `sessA`. -/
def td2 : TicketData := { row := 1, seat := 3, movie_session := sessA }

/-- A request whose row is below the hall's range. -/
def tdBadRow : TicketData := { row := 0, seat := 2, movie_session := sessA }

/-- `baseStore` after someone already bought `td1`'s seat. -/
def stTaken : Store :=
  { baseStore with tickets := [{ order_id := 5, movie_session_id := 1, row := 1, seat := 2 }] }

/-- The committed store of `orderCreate baseStore 7 [td1, td2]`, spelt out. -/
def stTwo : Store :=
  { movies := [movieA], sessions := [sessA], orders := [{ id := 0, user_id := 7 }],
    tickets := [ticketOf 0 td1, ticketOf 0 td2], nextOrderId := 1 }

/-- The committed store after user 1 wins `td1`'s seat on `baseStore`. -/
def stWin : Store :=
  { movies := [movieA], sessions := [sessA], orders := [{ id := 0, user_id := 1 }],
    tickets := [ticketOf 0 td1], nextOrderId := 1 }

/-! ## Theorems -/

/-! ### Shared lemmas about `TicketCreateSerializer.validate` and
`OrderSerializer.create` -/

/-- No committed ticket matches the request iff the matching count is 0. -/
theorem countTriple_eq_zero (w : Store) (td : TicketData) :
    countTriple w td = 0 ↔ w.tickets.any (·.matchesReq td) = false := by
  constructor
  · intro h
    rw [List.any_eq_false]
    intro tk htk hm
    have : tk ∈ w.tickets.filter (·.matchesReq td) := List.mem_filter.mpr ⟨htk, hm⟩
    rw [List.length_eq_zero.mp h] at this
    exact absurd this (List.not_mem_nil tk)
  · intro h
    have : w.tickets.filter (·.matchesReq td) = [] := by
      rw [List.filter_eq_nil_iff]
      intro a ha
      exact fun hm => (List.any_eq_false.mp h a ha) hm
    simp [countTriple, this]

/-- `validate` passes a free, in-range seat. -/
theorem ticketValidate_free (w : Store) (td : TicketData) (hg : geometryOk td)
    (hfree : w.tickets.any (·.matchesReq td) = false) :
    ticketValidate w td = .ok () := by
  unfold ticketValidate
  rw [if_neg (not_not_intro hg.1), if_neg (not_not_intro hg.2), if_neg (by simp [hfree])]

/-- `validate` rejects an in-range seat already matched by a ticket. -/
theorem ticketValidate_taken (w : Store) (td : TicketData) (hg : geometryOk td)
    (htaken : w.tickets.any (·.matchesReq td) = true) :
    ticketValidate w td = .error .seatTaken := by
  unfold ticketValidate
  rw [if_neg (not_not_intro hg.1), if_neg (not_not_intro hg.2), if_pos htaken]

/-- A single-seat `placeOrder` on a free seat commits the order and its
one ticket. -/
theorem orderCreate_single_free (s : Store) (u : Nat) (td : TicketData)
    (hg : geometryOk td) (hfree : s.tickets.any (·.matchesReq td) = false) :
    orderCreate s u [td] =
      .ok ({ s with
             orders := s.orders ++ [{ id := s.nextOrderId, user_id := u }],
             nextOrderId := s.nextOrderId + 1,
             tickets := s.tickets ++ [ticketOf s.nextOrderId td] }, s.nextOrderId) := by
  have hv : ticketValidate { s with
      orders := s.orders ++ [{ id := s.nextOrderId, user_id := u }],
      nextOrderId := s.nextOrderId + 1 } td = .ok () :=
    ticketValidate_free _ td hg hfree
  simp [orderCreate, insertTickets, hv]

/-- A single-seat `placeOrder` on a sold seat rolls back with the
seat-taken rejection. -/
theorem orderCreate_single_taken (s : Store) (u : Nat) (td : TicketData)
    (hg : geometryOk td) (htaken : s.tickets.any (·.matchesReq td) = true) :
    orderCreate s u [td] = .error .seatTaken := by
  have hv : ticketValidate { s with
      orders := s.orders ++ [{ id := s.nextOrderId, user_id := u }],
      nextOrderId := s.nextOrderId + 1 } td = .error .seatTaken :=
    ticketValidate_taken _ td hg htaken
  simp [orderCreate, insertTickets, hv]

/-- Inserting the requested ticket bumps its match count by one. -/
theorem countTriple_snoc_self (s : Store) (oid : Nat) (td : TicketData) :
    countTriple { s with tickets := s.tickets ++ [ticketOf oid td] } td =
      countTriple s td + 1 := by
  simp [countTriple, List.filter_append, ticketOf, Ticket.matchesReq]

/-- A passing `validate` implies no visible ticket matches the request. -/
theorem ticketValidate_ok_no_match (w : Store) (td : TicketData)
    (h : ticketValidate w td = .ok ()) :
    w.tickets.any (·.matchesReq td) = false := by
  by_cases h3 : w.tickets.any (·.matchesReq td) = true
  · exfalso
    unfold ticketValidate at h
    by_cases h1 : ¬ (1 ≤ td.row ∧ td.row ≤ td.movie_session.cinema_hall.rows)
    · rw [if_pos h1] at h; simp at h
    · rw [if_neg h1] at h
      by_cases h2 : ¬ (1 ≤ td.seat ∧ td.seat ≤ td.movie_session.cinema_hall.seats_in_row)
      · rw [if_pos h2] at h; simp at h
      · rw [if_neg h2, if_pos h3] at h; simp at h
  · exact Bool.eq_false_iff.mpr h3

/-- The event log's result component agrees with the plain embedding. -/
theorem insertTicketsTr_snd (oid : Nat) : ∀ (ts : List TicketData) (i : Nat) (w : Store),
    (insertTicketsTr oid ts i w).2 = insertTickets oid ts w := by
  intro ts
  induction ts with
  | nil => intro i w; rfl
  | cons t ts ih =>
    intro i w
    simp only [insertTicketsTr, insertTickets]
    cases hv : ticketValidate w t with
    | error e => rfl
    | ok _ => simpa using ih (i + 1) _

/-- The instrumented `create` returns what the plain `create` returns. -/
theorem orderCreateTr_snd (store : Store) (u : Nat) (tds : List TicketData) :
    (orderCreateTr store u tds).2 = orderCreate store u tds := by
  simp only [orderCreateTr, orderCreate, insertTicketsTr_snd]

/-- Every execution of `OrderSerializer.create` opens with the `Order`
row insert: the first event of the log is a store write. -/
theorem orderCreateTr_head (store : Store) (u : Nat) (tds : List TicketData) :
    (orderCreateTr store u tds).1.head? = some (.writeOrder store.nextOrderId) := rfl

/-- On success, the batch loop appends exactly the requested tickets to
the working state and touches nothing else. -/
theorem insertTickets_ok_shape (oid : Nat) : ∀ (ts : List TicketData) (w w2 : Store),
    insertTickets oid ts w = .ok w2 →
    w2 = { w with tickets := w.tickets ++ ts.map (ticketOf oid) } := by
  intro ts
  induction ts with
  | nil =>
    intro w w2 h
    injection h with h
    simp [← h]
  | cons t ts ih =>
    intro w w2 h
    simp only [insertTickets] at h
    cases hv : ticketValidate w t with
    | error e => rw [hv] at h; exact absurd h (by simp)
    | ok _ =>
      rw [hv] at h
      rw [ih _ _ h]
      simp

/-- On success, `OrderSerializer.create` commits the pre-state plus one
`Order` row and exactly the batch's `Ticket` rows. -/
theorem orderCreate_ok_shape (store : Store) (u : Nat) (tds : List TicketData)
    (s' : Store) (oid : Nat) (h : orderCreate store u tds = .ok (s', oid)) :
    oid = store.nextOrderId ∧
    s' = { store with
           orders := store.orders ++ [{ id := store.nextOrderId, user_id := u }],
           nextOrderId := store.nextOrderId + 1,
           tickets := store.tickets ++ tds.map (ticketOf store.nextOrderId) } := by
  simp only [orderCreate] at h
  cases hi : insertTickets store.nextOrderId tds
      { store with
        orders := store.orders ++ [{ id := store.nextOrderId, user_id := u }],
        nextOrderId := store.nextOrderId + 1 } with
  | error p => rw [hi] at h; exact absurd h (by simp)
  | ok w2 =>
    rw [hi] at h
    injection h with h
    injection h with h1 h2
    refine ⟨h2.symm, ?_⟩
    rw [← h1, insertTickets_ok_shape _ _ _ _ hi]

/-- If some batch item's seat is matched by a ticket visible to the
transaction, the batch loop raises. -/
theorem insertTickets_err_of_present (oid : Nat) (td : TicketData) :
    ∀ (ts : List TicketData) (w : Store), td ∈ ts →
      w.tickets.any (·.matchesReq td) = true →
      ∃ e w', insertTickets oid ts w = .error (e, w') := by
  intro ts
  induction ts with
  | nil => intro w h; exact absurd h (List.not_mem_nil td)
  | cons t0 ts ih =>
    intro w hmem hany
    cases hv : ticketValidate w t0 with
    | error e => exact ⟨e, w, by simp [insertTickets, hv]⟩
    | ok _ =>
      rcases List.mem_cons.mp hmem with rfl | hmem'
      · have := ticketValidate_ok_no_match w td hv
        rw [hany] at this
        exact absurd this (by simp)
      · have hany' : ({ w with tickets := w.tickets ++ [ticketOf oid t0] } : Store).tickets.any
            (·.matchesReq td) = true := by
          simp only [List.any_append]
          rw [hany]
          rfl
        obtain ⟨e, w', hw⟩ := ih _ hmem' hany'
        exact ⟨e, w', by simp [insertTickets, hv, hw]⟩

/-- A single-seat transaction whose snapshot shows the seat free but
whose INSERT races rows committed by a concurrent transaction aborts
with the constraint's `IntegrityError`. -/
theorem orderCreateRaced_single_conflict (store : Store) (concurrent : List Ticket)
    (u : Nat) (td : TicketData) (hg : geometryOk td)
    (hfree : store.tickets.any (·.matchesReq td) = false)
    (hconc : concurrent.any (·.matchesReq td) = true) :
    orderCreateRaced store concurrent u [td] = .error .integrityError := by
  have hv : ticketValidate { store with
      orders := store.orders ++ [{ id := store.nextOrderId, user_id := u }],
      nextOrderId := store.nextOrderId + 1 } td = .ok () :=
    ticketValidate_free _ td hg hfree
  have hins : insertTicketRaced concurrent
      ({ store with
         orders := store.orders ++ [{ id := store.nextOrderId, user_id := u }],
         nextOrderId := store.nextOrderId + 1 } : Store)
      (ticketOf store.nextOrderId td) = .error .integrityError := by
    unfold insertTicketRaced
    rw [if_pos]
    rw [List.any_append]
    have hc : concurrent.any (fun t0 =>
        t0.movie_session_id == (ticketOf store.nextOrderId td).movie_session_id &&
        t0.row == (ticketOf store.nextOrderId td).row &&
        t0.seat == (ticketOf store.nextOrderId td).seat) = true := by
      simpa [Ticket.matchesReq, ticketOf] using hconc
    rw [hc]
    simp
  simp [orderCreateRaced, insertTicketsRaced, hv, hins]

/-- Once the seat is matched by a committed ticket, every later
serialized call rejects with the seat-taken error and leaves the store
unchanged. -/
theorem runCalls_all_taken (td : TicketData) (hg : geometryOk td) :
    ∀ (us : List Nat) (s : Store), s.tickets.any (·.matchesReq td) = true →
      runCalls td us s = (s, us.map (fun _ => .error .seatTaken)) := by
  intro us
  induction us with
  | nil => intro s _; rfl
  | cons u us ih =>
    intro s h
    simp [runCalls, orderCreate_single_taken s u td hg h, ih s h]

/-- C4: `TicketCreateSerializer.validate` implements the seat-geometry
contract: the row-range rejection fires exactly when the row is outside
`[1, rows]`, the seat-range rejection fires exactly when the row is in
range but the seat is outside `[1, seats_in_row]`, and the geometry
checks pass exactly when both coordinates are in range. -/
theorem c4_seat_geometry (s : Store) (t : TicketData) :
    (ticketValidate s t = .error (.rowGeometry t.movie_session.cinema_hall.rows) ↔
      ¬ (1 ≤ t.row ∧ t.row ≤ t.movie_session.cinema_hall.rows)) ∧
    (ticketValidate s t = .error (.seatGeometry t.movie_session.cinema_hall.seats_in_row) ↔
      ((1 ≤ t.row ∧ t.row ≤ t.movie_session.cinema_hall.rows) ∧
        ¬ (1 ≤ t.seat ∧ t.seat ≤ t.movie_session.cinema_hall.seats_in_row))) ∧
    ((∀ e, ticketValidate s t = .error e → e.isGeometry = false) ↔ geometryOk t) := by
  by_cases h1 : 1 ≤ t.row ∧ t.row ≤ t.movie_session.cinema_hall.rows
  · by_cases h2 : 1 ≤ t.seat ∧ t.seat ≤ t.movie_session.cinema_hall.seats_in_row
    · by_cases h3 : s.tickets.any (·.matchesReq t) = true
      · have hv : ticketValidate s t = .error .seatTaken := by
          unfold ticketValidate
          rw [if_neg (not_not_intro h1), if_neg (not_not_intro h2), if_pos h3]
        simp [hv, geometryOk, h1, h2, OrderError.isGeometry]
      · have hv : ticketValidate s t = .ok () := by
          unfold ticketValidate
          rw [if_neg (not_not_intro h1), if_neg (not_not_intro h2), if_neg h3]
        simp [hv, geometryOk, h1, h2]
    · have hv : ticketValidate s t =
          .error (.seatGeometry t.movie_session.cinema_hall.seats_in_row) := by
        unfold ticketValidate
        rw [if_neg (not_not_intro h1), if_pos h2]
      simp [hv, geometryOk, h1, h2, OrderError.isGeometry]
  · have hv : ticketValidate s t = .error (.rowGeometry t.movie_session.cinema_hall.rows) := by
      unfold ticketValidate
      rw [if_pos h1]
    simp [hv, geometryOk, h1, OrderError.isGeometry]

/-- C4 witness: an out-of-range row on the concrete fixtures. -/
theorem c4_seat_geometry_witness :
    ticketValidate baseStore tdBadRow = .error (.rowGeometry 2) :=
  (c4_seat_geometry baseStore tdBadRow).1.mpr (by decide)

/-- C8: `OrderViewSet.get_queryset` returns exactly the authenticated
user's orders, and never another user's order, whatever the store holds. -/
theorem c8_order_listing_isolation (s : Store) (u : Nat) :
    (∀ o : Order, o ∈ orderGetQueryset s u ↔ o ∈ s.orders ∧ o.user_id = u) ∧
    (∀ a b : Nat, ∀ o : Order, a ≠ b → o.user_id = b → o ∉ orderGetQueryset s a) := by
  constructor
  · intro o
    simp [orderGetQueryset, List.mem_filter]
  · intro a b o hab hob hmem
    have := (List.mem_filter.mp hmem).2
    simp only [beq_iff_eq] at this
    exact hab (hob ▸ this).symm

/-- C8 witness: user 2's order is invisible to user 1 on a concrete store. -/
theorem c8_order_listing_isolation_witness :
    ({ id := 0, user_id := 2 } : Order) ∉
      orderGetQueryset { baseStore with orders := [{ id := 0, user_id := 2 }] } 1 :=
  (c8_order_listing_isolation { baseStore with orders := [{ id := 0, user_id := 2 }] } 1).2
    1 2 { id := 0, user_id := 2 } (by decide) rfl

/-- C10: the catalog list endpoints are not total on their query
parameters: a non-integer `genres` or `actors` token makes
`MovieViewSet.get_queryset` raise an uncaught `ValueError` from `int`,
and a `date` not of the form YYYY-MM-DD makes
`MovieSessionViewSet.get_queryset` raise an uncaught `ValueError`
from `strptime`. -/
theorem c10_query_params_not_total :
    movieGetQueryset baseStore none (some "x") none = .error () ∧
    movieGetQueryset baseStore none none (some "1,x") = .error () ∧
    movieSessionGetQueryset baseStore (some "2024/01/01") none true = .error () := by
  refine ⟨by decide, by decide, by decide⟩

/-- C3 (the code against the claim): `OrderSerializer.create` has no
empty-batch guard, so an empty `tickets` list succeeds and commits an
`Order` row that owns zero `Ticket` rows, instead of failing with an
empty-order rejection. -/
theorem c3_empty_order_committed :
    ∃ s' oid, orderCreate baseStore 7 [] = .ok (s', oid) ∧
      (∃ o ∈ s'.orders, o.id = oid ∧ o.user_id = 7) ∧
      s'.tickets = [] := by
  refine ⟨_, 0, rfl, ⟨{ id := 0, user_id := 7 }, ?_, rfl, rfl⟩, rfl⟩
  simp [baseStore]

/-- C1: when `OrderSerializer.create` raises on any requested ticket,
`transaction.atomic()` rolls the whole transaction back: the committed
store keeps exactly its previous `Order` rows and `Ticket` rows — nothing
from the failed batch survives. -/
theorem c1_rollback_all_or_nothing (store : Store) (u : Nat) (tds : List TicketData)
    (e : OrderError) (h : orderCreate store u tds = .error e) :
    (stateAfter store u tds).orders = store.orders ∧
    (stateAfter store u tds).tickets = store.tickets ∧
    stateAfter store u tds = store := by
  simp [stateAfter, h]

/-- C2 counterexample: in the overlapping schedule on the concrete
store — user 1 commits `td1`'s seat while user 2's transaction, whose
pre-check snapshot predates that commit, races it — user 2's call
aborts with the constraint's `IntegrityError`, not with the seat-taken
rejection, so it is false that every losing concurrent call fails with
`SeatTakenError`. -/
theorem c2_counterexample :
    orderCreate baseStore 1 [td1] = .ok (stWin, 0) ∧
    countTriple stWin td1 = 1 ∧
    orderCreateRaced baseStore [ticketOf 0 td1] 2 [td1] = .error .integrityError ∧
    PyExc.integrityError ≠ PyExc.validation .seatTaken :=
  ⟨by decide, by decide, by decide, by decide⟩

/-- C2 amended: among concurrent single-seat `placeOrder` calls all
requesting the same free in-range `(session, row, seat)`, exactly one
commits and exactly one sold ticket for that seat exists afterwards;
every other call fails, but the rejection it observes depends on the
schedule: a call whose transaction began after the winner's commit
fails the pre-check with the seat-taken rejection, while a call that
overlapped the winner (its pre-check read preceding the winner's
commit) aborts with the constraint's unhandled `IntegrityError`. -/
theorem c2_one_winner_race (store : Store) (td : TicketData)
    (u0 : Nat) (serialUsers racedUsers : List Nat)
    (hg : geometryOk td) (hfree : countTriple store td = 0) :
    ((runCalls td (u0 :: serialUsers) store).2.countP (fun r => r.toOption.isSome) = 1) ∧
    (∀ r ∈ (runCalls td (u0 :: serialUsers) store).2, r.toOption.isSome = false →
      r = .error .seatTaken) ∧
    countTriple (runCalls td (u0 :: serialUsers) store).1 td = 1 ∧
    (∀ u ∈ racedUsers,
      orderCreateRaced store [ticketOf store.nextOrderId td] u [td] =
        .error .integrityError) := by
  have hfree' : store.tickets.any (·.matchesReq td) = false :=
    (countTriple_eq_zero _ _).mp hfree
  have hraced : ∀ u ∈ racedUsers,
      orderCreateRaced store [ticketOf store.nextOrderId td] u [td] =
        .error .integrityError := by
    intro u _
    exact orderCreateRaced_single_conflict store [ticketOf store.nextOrderId td] u td hg
      hfree' (by simp [ticketOf, Ticket.matchesReq])
  have h1 := orderCreate_single_free store u0 td hg hfree'
  have htaken1 :
      ({ store with
         orders := store.orders ++ [{ id := store.nextOrderId, user_id := u0 }],
         nextOrderId := store.nextOrderId + 1,
         tickets := store.tickets ++ [ticketOf store.nextOrderId td] } : Store).tickets.any
        (·.matchesReq td) = true := by
    simp [ticketOf, Ticket.matchesReq]
  have hrun := runCalls_all_taken td hg serialUsers _ htaken1
  have hres : runCalls td (u0 :: serialUsers) store =
      ({ store with
         orders := store.orders ++ [{ id := store.nextOrderId, user_id := u0 }],
         nextOrderId := store.nextOrderId + 1,
         tickets := store.tickets ++ [ticketOf store.nextOrderId td] },
       .ok store.nextOrderId :: serialUsers.map (fun _ => .error .seatTaken)) := by
    simp [runCalls, h1, hrun]
  rw [hres]
  refine ⟨?_, ?_, ?_, hraced⟩
  · simp [List.countP_cons, Except.toOption, List.countP_map, Function.comp]
  · intro r hr hno
    rcases List.mem_cons.mp hr with rfl | hr'
    · simp [Except.toOption] at hno
    · rcases List.mem_map.mp hr' with ⟨_, _, rfl⟩
      rfl
  · simp only [countTriple] at hfree
    simp [countTriple, List.filter_append, ticketOf, Ticket.matchesReq, hfree]
    intro a ha he hr
    have hmf := List.any_eq_false.mp hfree' a ha
    simp [Ticket.matchesReq, he, hr] at hmf
    exact hmf

/-- C2 witness: user 1 wins, user 2's transaction starts after that
commit and gets the seat-taken rejection, user 3's transaction
overlapped the winner and aborts with `IntegrityError`; one ticket
for the seat exists afterwards. -/
theorem c2_one_winner_race_witness :
    ((runCalls td1 [1, 2] baseStore).2.countP (fun r => r.toOption.isSome) = 1) ∧
    (∀ r ∈ (runCalls td1 [1, 2] baseStore).2, r.toOption.isSome = false →
      r = .error .seatTaken) ∧
    countTriple (runCalls td1 [1, 2] baseStore).1 td1 = 1 ∧
    (∀ u ∈ [3], orderCreateRaced baseStore [ticketOf baseStore.nextOrderId td1] u [td1] =
      .error .integrityError) :=
  c2_one_winner_race baseStore td1 1 [2] [3] (by decide) (by decide)

/-- C1 witness: a batch whose second item repeats the first is rejected
and leaves the concrete store untouched. -/
theorem c1_rollback_all_or_nothing_witness :
    (stateAfter baseStore 7 [td1, td1]).orders = baseStore.orders ∧
    (stateAfter baseStore 7 [td1, td1]).tickets = baseStore.tickets ∧
    stateAfter baseStore 7 [td1, td1] = baseStore :=
  c1_rollback_all_or_nothing baseStore 7 [td1, td1] .seatTaken rfl

/-- C5 counterexample: a commit-time uniqueness conflict (a concurrent
transaction committed the same seat after this transaction's snapshot)
surfaces as the ORM's `IntegrityError`, not as the seat-taken
`ValidationError` — the two failures are distinguishable, contrary to
the claim. -/
theorem c5_counterexample :
    orderCreateRaced baseStore [{ order_id := 5, movie_session_id := 1, row := 1, seat := 2 }]
      8 [td1] = .error .integrityError ∧
    (PyExc.integrityError ≠ PyExc.validation .seatTaken) :=
  ⟨by decide, by decide⟩

/-- C5 amended: a requested ticket matching an already-visible sold
ticket fails at the pre-check with the seat-taken rejection; but a
uniqueness conflict first detected at commit time raises an unhandled
`IntegrityError`, since no code in the repository maps the constraint
violation to the seat-taken error. -/
theorem c5_pre_check_vs_commit_conflict :
    (∀ (store : Store) (u : Nat) (td : TicketData), geometryOk td →
      store.tickets.any (·.matchesReq td) = true →
      orderCreate store u [td] = .error .seatTaken) ∧
    (∀ (store : Store) (concurrent : List Ticket) (u : Nat) (td : TicketData), geometryOk td →
      store.tickets.any (·.matchesReq td) = false →
      concurrent.any (·.matchesReq td) = true →
      orderCreateRaced store concurrent u [td] = .error .integrityError) := by
  constructor
  · intro store u td hg htaken
    exact orderCreate_single_taken store u td hg htaken
  · intro store concurrent u td hg hfree hconc
    exact orderCreateRaced_single_conflict store concurrent u td hg hfree hconc

/-- C5 witness: the pre-check rejection and the raced commit conflict on
the concrete fixtures. -/
theorem c5_pre_check_vs_commit_conflict_witness :
    orderCreate stTaken 8 [td1] = .error .seatTaken ∧
    orderCreateRaced baseStore [{ order_id := 5, movie_session_id := 1, row := 1, seat := 2 }]
      9 [td1] = .error .integrityError :=
  ⟨c5_pre_check_vs_commit_conflict.1 stTaken 8 td1 (by decide) (by decide),
   c5_pre_check_vs_commit_conflict.2 baseStore
     [{ order_id := 5, movie_session_id := 1, row := 1, seat := 2 }] 9 td1
     (by decide) (by decide) (by decide)⟩

/-- C6 counterexample: it is not the case that the seat validator runs
before any store access — at a concrete rejected request the first
logged event of `OrderSerializer.create` is the `Order` row insert,
a store write that precedes the validator run present in the log. -/
theorem c6_counterexample :
    ¬ (∀ (store : Store) (u : Nat) (tds : List TicketData) (e : Ev),
        Ev.validateTicket 0 ∈ (orderCreateTr store u tds).1 →
        (orderCreateTr store u tds).1.head? = some e →
        e.isWrite = false) := by
  intro h
  have := h baseStore 7 [tdBadRow] (.writeOrder 0) (by decide) (by decide)
  simp [Ev.isWrite] at this

/-- C6 amended: per-item validation runs inside the already-open
transaction — the `Order` row insert is the first store access of every
`create` call — and a per-item validation failure aborts the whole
batch; the rollback of `transaction.atomic()` then guarantees a
rejected request leaves no committed store mutation. -/
theorem c6_validation_inside_transaction (store : Store) (u : Nat)
    (tds : List TicketData) (e : OrderError)
    (h : orderCreate store u tds = .error e) :
    (orderCreateTr store u tds).1.head? = some (.writeOrder store.nextOrderId) ∧
    (orderCreateTr store u tds).2 = .error e ∧
    stateAfter store u tds = store := by
  refine ⟨orderCreateTr_head store u tds, ?_, ?_⟩
  · rw [orderCreateTr_snd, h]
  · simp [stateAfter, h]

/-- C6 witness: a geometry-rejected request on the concrete fixtures. -/
theorem c6_validation_inside_transaction_witness :
    (orderCreateTr baseStore 7 [tdBadRow]).1.head? = some (.writeOrder baseStore.nextOrderId) ∧
    (orderCreateTr baseStore 7 [tdBadRow]).2 = .error (.rowGeometry 2) ∧
    stateAfter baseStore 7 [tdBadRow] = baseStore :=
  c6_validation_inside_transaction baseStore 7 [tdBadRow] (.rowGeometry 2) (by decide)

/-- C7: the `tickets_available` value attached by
`MovieSessionViewSet.get_queryset` on the list action equals hall
capacity minus the session's committed ticket count; and a committed
order of N tickets for a session lowers that session's availability by
exactly N. -/
theorem c7_available_seats :
    (∀ (store : Store) (d m : Option String) (res : List (MovieSession × Option Int)),
      movieSessionGetQueryset store d m true = .ok res →
      ∀ p ∈ res, p.2 = some (p.1.cinema_hall.capacity - (countSession store p.1.id : Int))) ∧
    (∀ (store : Store) (u : Nat) (tds : List TicketData) (s' : Store) (oid : Nat)
        (ms : MovieSession),
      orderCreate store u tds = .ok (s', oid) →
      (∀ t ∈ tds, t.movie_session.id = ms.id) →
      availableSeats s' ms = availableSeats store ms - tds.length) := by
  constructor
  · intro store d m res h p hp
    simp only [movieSessionGetQueryset, bind, Except.bind] at h
    split at h
    · exact absurd h (by simp)
    · split at h
      · exact absurd h (by simp)
      · simp only [pure, Except.pure, if_true] at h
        injection h with h
        rw [← h] at hp
        rcases List.mem_map.mp hp with ⟨ms', _, rfl⟩
        simp [availableSeats]
  · intro store u tds s' oid ms h hall
    obtain ⟨-, rfl⟩ := orderCreate_ok_shape store u tds s' oid h
    have hkeep : ((tds.map (ticketOf store.nextOrderId)).filter
        (fun tk => tk.movie_session_id == ms.id)) = tds.map (ticketOf store.nextOrderId) := by
      rw [List.filter_eq_self]
      intro a ha
      rcases List.mem_map.mp ha with ⟨t, ht, rfl⟩
      simp [ticketOf, hall t ht]
    simp only [availableSeats, countSession, List.filter_append, List.length_append, hkeep,
      List.length_map]
    push_cast
    ring

/-- C7 witness: committing the two-ticket order on the concrete store
drops the session's availability from 6 to 4. -/
theorem c7_available_seats_witness :
    availableSeats stTwo sessA = availableSeats baseStore sessA -
      ([td1, td2] : List TicketData).length :=
  c7_available_seats.2 baseStore 7 [td1, td2] stTwo 0 sessA (by decide) (by decide)

/-- C9: two items of one batch naming the same `(session, row, seat)`
can never both commit: each ticket is saved inside the shared
transaction before the next item is validated, so the later duplicate
fails the seat-taken check, the whole order errors, and the committed
store is unchanged. -/
theorem c9_intra_batch_duplicates (store : Store) (u : Nat)
    (l₁ l₂ l₃ : List TicketData) (t₁ t₂ : TicketData)
    (hdup : t₁.movie_session.id = t₂.movie_session.id ∧ t₁.row = t₂.row ∧ t₁.seat = t₂.seat) :
    (∃ e, orderCreate store u (l₁ ++ t₁ :: (l₂ ++ t₂ :: l₃)) = .error e) ∧
    stateAfter store u (l₁ ++ t₁ :: (l₂ ++ t₂ :: l₃)) = store := by
  have key : ∀ (w : Store), ∃ e w',
      insertTickets store.nextOrderId (l₁ ++ t₁ :: (l₂ ++ t₂ :: l₃)) w = .error (e, w') := by
    induction l₁ with
    | nil =>
      intro w
      simp only [List.nil_append, insertTickets]
      cases hv : ticketValidate w t₁ with
      | error e => exact ⟨e, w, rfl⟩
      | ok _ =>
        have hany : ({ w with tickets := w.tickets ++ [ticketOf store.nextOrderId t₁] } :
            Store).tickets.any (·.matchesReq t₂) = true := by
          simp [List.any_append, ticketOf, Ticket.matchesReq, hdup.1, hdup.2.1, hdup.2.2]
        have hmem : t₂ ∈ l₂ ++ t₂ :: l₃ :=
          List.mem_append_right _ (List.mem_cons_self _ _)
        obtain ⟨e, w', hw⟩ := insertTickets_err_of_present store.nextOrderId t₂ _ _ hmem hany
        exact ⟨e, w', hw⟩
    | cons t0 l₁ ih =>
      intro w
      simp only [List.cons_append, insertTickets]
      cases hv : ticketValidate w t0 with
      | error e => exact ⟨e, w, rfl⟩
      | ok _ => exact ih _
  obtain ⟨e, w', hw⟩ := key { store with
    orders := store.orders ++ [{ id := store.nextOrderId, user_id := u }],
    nextOrderId := store.nextOrderId + 1 }
  have herr : orderCreate store u (l₁ ++ t₁ :: (l₂ ++ t₂ :: l₃)) = .error e := by
    simp [orderCreate, hw]
  exact ⟨⟨e, herr⟩, by simp [stateAfter, herr]⟩

/-- C9 witness: a two-item batch repeating one seat on the concrete
store errors and commits nothing. -/
theorem c9_intra_batch_duplicates_witness :
    (∃ e, orderCreate baseStore 7 ([] ++ td1 :: ([] ++ td1 :: [])) = .error e) ∧
    stateAfter baseStore 7 ([] ++ td1 :: ([] ++ td1 :: [])) = baseStore :=
  c9_intra_batch_duplicates baseStore 7 [] [] [] td1 td1 ⟨rfl, rfl, rfl⟩

end Cinema
